import Mathlib

/-!
Verification of the NEAT-flappyBird simulation core.

A shallow embedding of the evaluation loop of `flappy_ai` (files
`game/bird.py`, `game/pipe.py`, `ai/trainer.py`, `utils/config.py`) in
Lean 4, together with theorems that settle the specification claims.

Python floats are modelled as rationals (`ℚ`); all arithmetic occurring
in the embedded code (halves and tenths) is exact in both
representations.  Pixel-mask collision tests and image dimensions depend
on the loaded image assets, so they enter the model as parameters: the
mask test of `Pipe.collide` is a parameter `collide : Pipe → Bird → Bool`
and image heights/widths are explicit arguments.
-/

namespace FlappyAI

/-! ## Configuration constants (`utils/config.py`, class attributes) -/

def WIN_WIDTH : ℤ := 600
def FLOOR_Y : ℚ := 730

/-! ## Bird (`game/bird.py`) -/

def JUMP_VELOCITY : ℚ := -10.5
def GRAVITY : ℚ := 3.0
def MAX_ROTATION : ℚ := 25
def ROT_VEL : ℚ := 20

/-- The fields of `Bird` that the simulation logic touches (`img_count`,
`images`, `img` drive only the sprite animation and are omitted; the
bird image's height is passed separately where the trainer reads it). -/
structure Bird where
  x : ℤ
  y : ℚ
  tilt : ℚ
  tick_count : ℕ
  vel : ℚ
  height : ℚ
  deriving Repr, DecidableEq

/-- `Bird.__init__(x, y, images)`. -/
def Bird.create (x : ℤ) (y : ℚ) : Bird :=
  { x := x, y := y, tilt := 0, tick_count := 0, vel := 0, height := y }

instance : Inhabited Bird := ⟨Bird.create 0 0⟩

/-- `Bird.jump`. -/
def Bird.jump (b : Bird) : Bird :=
  { b with vel := JUMP_VELOCITY, tick_count := 0, height := b.y }

/-- The kinematic displacement computed at the top of `Bird.move`:
`displacement = self.vel * self.tick_count + 0.5 * self.GRAVITY * self.tick_count ** 2`
(evaluated after `tick_count` was incremented, so `t` here is the
incremented counter). -/
def dispRaw (vel : ℚ) (t : ℕ) : ℚ :=
  vel * t + 0.5 * GRAVITY * (t : ℚ) ^ 2

/-- The terminal-velocity branch of `Bird.move`:
`if displacement >= 16: displacement = (displacement / abs(displacement)) * 16`. -/
def dispClamped (vel : ℚ) (t : ℕ) : ℚ :=
  let d := dispRaw vel t
  if 16 ≤ d then d / |d| * 16 else d

/-- The displacement actually added to `self.y` by `Bird.move`, after the
extra upward boost `if displacement < 0: displacement -= 2`. -/
def dispApplied (vel : ℚ) (t : ℕ) : ℚ :=
  let d := dispClamped vel t
  if d < 0 then d - 2 else d

/-- `Bird.move`: increments `tick_count`, applies the clamped/boosted
displacement to `y`, and updates the cosmetic tilt. -/
def Bird.move (b : Bird) : Bird :=
  let t := b.tick_count + 1
  let d := dispApplied b.vel t
  let y := b.y + d
  let tilt :=
    if d < 0 ∨ y < b.height + 50 then
      if b.tilt < MAX_ROTATION then MAX_ROTATION else b.tilt
    else
      if b.tilt > -90 then b.tilt - ROT_VEL else b.tilt
  { b with tick_count := t, y := y, tilt := tilt }

/-! ## Pipe (`game/pipe.py`) -/

def GAP : ℤ := 200
def PIPE_VEL : ℤ := 5
def MIN_HEIGHT : ℤ := 50
def MAX_HEIGHT : ℤ := 450

/-- The fields of `Pipe` that the simulation logic touches.  The images
`PIPE_TOP`/`PIPE_BOTTOM` are assets; their dimensions are passed as
arguments where the code reads them. -/
structure Pipe where
  x : ℤ
  height : ℤ
  top : ℤ
  bottom : ℤ
  passed : Bool
  deriving Repr, DecidableEq

/-- `Pipe.set_height`, with the value of
`random.randrange(self.MIN_HEIGHT, self.MAX_HEIGHT)` supplied as the
oracle `r` (so `MIN_HEIGHT ≤ r < MAX_HEIGHT` in every real execution)
and the top-pipe image height as `pipeTopH`. -/
def Pipe.set_height (r pipeTopH : ℤ) (p : Pipe) : Pipe :=
  { p with height := r, top := r - pipeTopH, bottom := r + GAP }

/-- `Pipe.__init__(x, pipe_img)`: zero-initialises the geometry, sets
`passed = False`, then calls `set_height` (random draw `r`). -/
def Pipe.create (x r pipeTopH : ℤ) : Pipe :=
  Pipe.set_height r pipeTopH { x := x, height := 0, top := 0, bottom := 0, passed := false }

/-- `Pipe.move`: `self.x -= self.VEL`. -/
def Pipe.moveP (p : Pipe) : Pipe :=
  { p with x := p.x - PIPE_VEL }

/-- `Pipe.is_off_screen`: `self.x + self.PIPE_TOP.get_width() < 0`. -/
def Pipe.is_off_screen (pipeW : ℤ) (p : Pipe) : Bool :=
  p.x + pipeW < 0

/-- `Pipe.mark_passed`. -/
def Pipe.mark_passed (p : Pipe) : Pipe :=
  { p with passed := true }

/-! ## Helper lemmas about the displacement pipeline -/

/-- The terminal-velocity branch only rewrites `d` to `16` (for `d ≥ 16`
the sign factor `d / |d|` is `1`). -/
theorem dispClamped_eq (vel : ℚ) (t : ℕ) :
    dispClamped vel t = if 16 ≤ dispRaw vel t then 16 else dispRaw vel t := by
  simp only [dispClamped]
  split
  · next h =>
    have hpos : (0 : ℚ) < dispRaw vel t := lt_of_lt_of_le (by norm_num) h
    rw [abs_of_pos hpos, div_self (ne_of_gt hpos), one_mul]
  · rfl

theorem dispApplied_of_nonneg (vel : ℚ) (t : ℕ) (h : 0 ≤ dispRaw vel t) :
    dispApplied vel t = min (dispRaw vel t) 16 := by
  simp only [dispApplied]
  rw [dispClamped_eq]
  rcases le_or_lt 16 (dispRaw vel t) with h16 | h16
  · simp [h16, min_eq_right h16]
  · have : ¬ (16 : ℚ) ≤ dispRaw vel t := not_le.mpr h16
    simp [this, not_lt.mpr h, min_eq_left (le_of_lt h16)]

theorem dispApplied_of_neg (vel : ℚ) (t : ℕ) (h : dispRaw vel t < 0) :
    dispApplied vel t = dispRaw vel t - 2 := by
  simp only [dispApplied]
  rw [dispClamped_eq]
  have h16 : ¬ (16 : ℚ) ≤ dispRaw vel t := by
    intro hc; exact absurd (lt_of_le_of_lt hc h) (by norm_num)
  simp [h16, h]

/-! ## Claim C8: `Bird.jump` -/

/-- Claim C8: for every prior bird state, `jump` sets the vertical
velocity to exactly the configured impulse `-10.5`, resets the
ticks-since-jump counter to `0`, and records the current vertical
position as the new reference height (all other position state is
untouched). -/
theorem C8_jump_sets_impulse_resets_counter (b : Bird) :
    (Bird.jump b).vel = -10.5 ∧ (Bird.jump b).tick_count = 0 ∧
    (Bird.jump b).height = b.y ∧ (Bird.jump b).x = b.x ∧ (Bird.jump b).y = b.y :=
  ⟨rfl, rfl, rfl, rfl, rfl⟩

/-! ## Claim C2: the displacement clamp in `Bird.move` -/

/-- Claim C2 (counterexample): the claim that one `move` changes `y` by
at most `16` in magnitude is false.  A bird two ticks after a jump
(`vel = -10.5`, `tick_count = 2`) gets raw displacement
`-10.5·3 + 1.5·9 = -18`, which the code does not clamp (the clamp only
fires for `displacement ≥ 16`), and the upward boost makes it `-20`. -/
theorem C2_counterexample :
    (Bird.move { x := 230, y := 350, tilt := 0, tick_count := 2,
                 vel := -10.5, height := 350 }).y = 330 ∧
    ¬ |(Bird.move { x := 230, y := 350, tilt := 0, tick_count := 2,
                    vel := -10.5, height := 350 }).y - 350| ≤ (16 : ℚ) := by
  norm_num [Bird.move, dispApplied, dispClamped, dispRaw, GRAVITY]

/-- Claim C2 (amended): one `move` clamps the displacement only from
above: the displacement added to `y` is at most `16`, and when the raw
kinematic displacement is nonnegative it is `min raw 16`, so its
magnitude is at most `16`; but a negative raw displacement is not
clamped at `-16` — it merely has the fixed boost `2` subtracted, so the
downward claim `|displacement| ≤ 16` fails (see the counterexample). -/
theorem C2_displacement_clamped_above_only (b : Bird) :
    (Bird.move b).y = b.y + dispApplied b.vel (b.tick_count + 1) ∧
    dispApplied b.vel (b.tick_count + 1) ≤ 16 ∧
    (0 ≤ dispRaw b.vel (b.tick_count + 1) →
      |dispApplied b.vel (b.tick_count + 1)| ≤ 16) ∧
    (dispRaw b.vel (b.tick_count + 1) < 0 →
      dispApplied b.vel (b.tick_count + 1) = dispRaw b.vel (b.tick_count + 1) - 2) := by
  refine ⟨rfl, ?_, ?_, dispApplied_of_neg _ _⟩
  · rcases le_or_lt 0 (dispRaw b.vel (b.tick_count + 1)) with h | h
    · rw [dispApplied_of_nonneg _ _ h]; exact min_le_right _ _
    · rw [dispApplied_of_neg _ _ h]; linarith
  · intro h
    rw [dispApplied_of_nonneg _ _ h, abs_of_nonneg (le_min h (by norm_num))]
    exact min_le_right _ _

/-- Witness for C2's amended theorem at a freshly created bird
(`vel = 0`, `tick_count = 0`): its first raw displacement `1.5` is
nonnegative and the applied displacement has magnitude at most `16`. -/
theorem C2_displacement_witness :
    0 ≤ dispRaw (Bird.create 230 350).vel ((Bird.create 230 350).tick_count + 1) ∧
    |dispApplied (Bird.create 230 350).vel ((Bird.create 230 350).tick_count + 1)| ≤ 16 :=
  ⟨by norm_num [Bird.create, dispRaw, GRAVITY],
   (C2_displacement_clamped_above_only (Bird.create 230 350)).2.2.1
     (by norm_num [Bird.create, dispRaw, GRAVITY])⟩

/-! ## Claim C7: pipe geometry from `Pipe.set_height` -/

/-- Claim C7: for every pipe created by `Pipe.create`/`set_height` with a
draw `r` in `randrange(MIN_HEIGHT, MAX_HEIGHT)` range and a nonnegative
top-image height `H`, the gap-start lies in `[50, 450]`, the top pipe is
blitted at `height - H` (so its extent `[top, top + H)` ends at the
gap-start), the bottom pipe starts at `height + 200`, and neither pipe
extent meets the gap region `[height, height + GAP)`. -/
theorem C7_pipe_geometry (x r H : ℤ) (hr : MIN_HEIGHT ≤ r ∧ r < MAX_HEIGHT)
    (hH : 0 ≤ H) :
    (50 ≤ (Pipe.create x r H).height ∧ (Pipe.create x r H).height ≤ 450) ∧
    (Pipe.create x r H).top = (Pipe.create x r H).height - H ∧
    (Pipe.create x r H).bottom = (Pipe.create x r H).height + 200 ∧
    (∀ y : ℤ, (Pipe.create x r H).top ≤ y ∧ y < (Pipe.create x r H).top + H →
      ¬ ((Pipe.create x r H).height ≤ y ∧ y < (Pipe.create x r H).height + GAP)) ∧
    (∀ y : ℤ, (Pipe.create x r H).bottom ≤ y ∧ y < (Pipe.create x r H).bottom + H →
      ¬ ((Pipe.create x r H).height ≤ y ∧ y < (Pipe.create x r H).height + GAP)) := by
  obtain ⟨hr1, hr2⟩ := hr
  simp only [MIN_HEIGHT, MAX_HEIGHT] at hr1 hr2
  refine ⟨⟨?_, ?_⟩, ?_, ?_, fun y hy => ?_, fun y hy => ?_⟩ <;>
    simp only [Pipe.create, Pipe.set_height, GAP] at * <;> omega

/-- Witness for C7 at the spec's scenario: pipe spawned at `x = 700`
with gap-start `300` and top-image height `640` — the bottom extent
starts at `500`. -/
theorem C7_pipe_geometry_witness :
    (Pipe.create 700 300 640).bottom = (Pipe.create 700 300 640).height + 200 ∧
    (Pipe.create 700 300 640).bottom = 500 :=
  ⟨(C7_pipe_geometry 700 300 640 (by decide) (by decide)).2.2.1, by decide⟩

/-! ## `NEATTrainer._remove_bird` (`ai/trainer.py`) -/

/-- `NEATTrainer._remove_bird(index, birds, networks, genomes)`: when
`0 <= index < len(birds)` it pops position `index` from the three
parallel lists; otherwise it does nothing (and, being a total function,
raises no error). -/
def removeBird {α β γ : Type} (index : ℤ) (birds : List α) (networks : List β)
    (genomes : List γ) : List α × List β × List γ :=
  if 0 ≤ index ∧ index < birds.length then
    (birds.eraseIdx index.toNat, networks.eraseIdx index.toNat, genomes.eraseIdx index.toNat)
  else (birds, networks, genomes)

/-! ## Claim C1: elimination keeps the three parallel lists in lock-step -/

/-- Claim C1: for every in-range index `i` and all same-length lists of
agents, controllers and genomes, `_remove_bird i` shortens all three
lists by one, leaves every position `j < i` untouched in all three, and
shifts the entity formerly at `j + 1` down to `j` in all three for every
`j ≥ i` — so each remaining index still refers to one logical entity. -/
theorem C1_remove_bird_correspondence {α β γ : Type} (i : ℕ)
    (birds : List α) (networks : List β) (genomes : List γ)
    (hi : i < birds.length)
    (hn : networks.length = birds.length) (hg : genomes.length = birds.length) :
    ((removeBird i birds networks genomes).1.length = birds.length - 1 ∧
     (removeBird i birds networks genomes).2.1.length = birds.length - 1 ∧
     (removeBird i birds networks genomes).2.2.length = birds.length - 1) ∧
    (∀ j, j < i →
      (removeBird i birds networks genomes).1[j]? = birds[j]? ∧
      (removeBird i birds networks genomes).2.1[j]? = networks[j]? ∧
      (removeBird i birds networks genomes).2.2[j]? = genomes[j]?) ∧
    (∀ j, i ≤ j →
      (removeBird i birds networks genomes).1[j]? = birds[j + 1]? ∧
      (removeBird i birds networks genomes).2.1[j]? = networks[j + 1]? ∧
      (removeBird i birds networks genomes).2.2[j]? = genomes[j + 1]?) := by
  have hcond : 0 ≤ (i : ℤ) ∧ (i : ℤ) < birds.length :=
    ⟨Int.natCast_nonneg i, by exact_mod_cast hi⟩
  have htn : ((i : ℤ)).toNat = i := by omega
  simp only [removeBird, if_pos hcond, htn]
  refine ⟨⟨?_, ?_, ?_⟩, fun j hj => ⟨?_, ?_, ?_⟩, fun j hj => ⟨?_, ?_, ?_⟩⟩
  · rw [List.length_eraseIdx]; simp [hi]
  · rw [List.length_eraseIdx]; simp [hn, hi]
  · rw [List.length_eraseIdx]; simp [hg, hi]
  · exact List.getElem?_eraseIdx_of_lt _ _ _ hj
  · exact List.getElem?_eraseIdx_of_lt _ _ _ hj
  · exact List.getElem?_eraseIdx_of_lt _ _ _ hj
  · exact List.getElem?_eraseIdx_of_ge _ _ _ hj
  · exact List.getElem?_eraseIdx_of_ge _ _ _ hj
  · exact List.getElem?_eraseIdx_of_ge _ _ _ hj

/-- Witness for C1: removing index `0` from `[10, 20] / [30, 40] /
[50, 60]` shifts the entities formerly at index `1` down to index `0`
in all three lists. -/
theorem C1_remove_bird_witness :
    0 < ([10, 20] : List ℕ).length ∧
    ((removeBird 0 [10, 20] [30, 40] ([50, 60] : List ℕ)).1[0]? = some 20 ∧
     (removeBird 0 [10, 20] [30, 40] ([50, 60] : List ℕ)).2.1[0]? = some 40 ∧
     (removeBird 0 [10, 20] [30, 40] ([50, 60] : List ℕ)).2.2[0]? = some 60) :=
  ⟨by decide, by
    have h := (C1_remove_bird_correspondence 0 [10, 20] [30, 40] ([50, 60] : List ℕ)
      (by decide) rfl rfl).2.2 0 (Nat.le_refl 0)
    simpa using h⟩

/-! ## Claim C10: out-of-range elimination is a no-op -/

/-- Claim C10: calling `_remove_bird` with any index outside
`[0, len(birds))` — including any negative index — leaves all three
parallel lists unchanged; the helper is total, so no error is raised. -/
theorem C10_remove_bird_out_of_range {α β γ : Type} (i : ℤ)
    (birds : List α) (networks : List β) (genomes : List γ)
    (h : ¬ (0 ≤ i ∧ i < birds.length)) :
    removeBird i birds networks genomes = (birds, networks, genomes) := by
  simp only [removeBird, if_neg h]

/-- Witness for C10 at the negative index `-1` on concrete lists. -/
theorem C10_remove_bird_witness :
    ¬ (0 ≤ (-1 : ℤ) ∧ (-1 : ℤ) < ([10] : List ℕ).length) ∧
    removeBird (-1) ([10] : List ℕ) ([30] : List ℕ) ([50] : List ℕ) = ([10], [30], [50]) :=
  ⟨by decide, C10_remove_bird_out_of_range (-1) [10] [30] [50] (by decide)⟩

/-! ## The evaluation loop of `NEATTrainer._eval_genomes` (`ai/trainer.py`)

Genomes are Python objects mutated through references held in
`genome_list`; NEAT keeps the objects alive after they are popped from
the list.  The model therefore keeps a fitness store `fits` indexed by
genome id and lets `genome_list` hold ids, mirroring reference
semantics: popping an id from `genome_list` does not erase the genome's
accumulated fitness from the store. -/

/-- `neat.nn.FeedForwardNetwork.activate` on a 3-vector, first (only)
output coordinate.  Networks are opaque evolved functions. -/
def Net : Type := ℚ → ℚ → ℚ → ℚ

/-- `pipe.collide(bird)` is a pixel-mask test over loaded image assets;
it enters the model as an oracle. -/
def Collide : Type := Pipe → Bird → Bool

/-- Image dimensions read by the trainer: `PIPE_TOP.get_width()`,
`PIPE_TOP.get_height()` (used by `set_height`), `bird.img.get_height()`. -/
structure Geom where
  pipeW : ℤ
  pipeTopH : ℤ
  birdH : ℚ

/-- `genome.fitness += d` through the reference `gid` into the store.
Every id handed out by the trainer is `< fits.length`. -/
def addFit (fits : List ℚ) (gid : ℕ) (d : ℚ) : List ℚ :=
  fits.set gid (fits.getD gid 0 + d)

/-- `for genome in genome_list: genome.fitness += d`. -/
def addFitAll (gids : List ℕ) (d : ℚ) (fits : List ℚ) : List ℚ :=
  gids.foldl (fun f gid => addFit f gid d) fits

/-- The per-generation mutable state of `_eval_genomes`. -/
structure EvalState where
  birds : List Bird
  networks : List Net
  genome_list : List ℕ
  fits : List ℚ
  pipes : List Pipe
  score : ℕ

/-- The `pipe_index` selection:
`pipe_index = 0`, then `if len(birds) > 0: if len(pipes) > 1 and
birds[0].x > pipes[0].x + pipes[0].PIPE_TOP.get_width(): pipe_index = 1`. -/
def pipeIndex (g : Geom) (birds : List Bird) (pipes : List Pipe) : ℕ :=
  match birds with
  | [] => 0
  | b0 :: _ =>
    match pipes with
    | p0 :: _ :: _ => if b0.x > p0.x + g.pipeW then 1 else 0
    | _ => 0

/-- One iteration of the bird loop: `bird.move()`; activate the network
on `(bird.y, abs(bird.y - target.height), abs(bird.y - target.bottom))`;
`if output[0] > 0.5: bird.jump()`.  (The `fitness += 0.1` between the
move and the activation touches only the fitness store and is threaded
by `birdsPhase`.) -/
def birdStep (net : Net) (target : Pipe) (b : Bird) : Bird :=
  let b1 := Bird.move b
  let out := net b1.y |b1.y - (target.height : ℚ)| |b1.y - (target.bottom : ℚ)|
  if out > 0.5 then Bird.jump b1 else b1

/-- `for i, bird in enumerate(birds)`: move each bird, grant the `0.1`
survival reward to its genome, and apply the network decision.  The
three lists are consumed in lock-step; they have equal length in every
reachable state. -/
def birdsPhase (target : Pipe) :
    List Bird → List Net → List ℕ → List ℚ → List Bird × List ℚ
  | b :: bs, n :: ns, gid :: gs, fits =>
    let fits1 := addFit fits gid 0.1
    let b1 := birdStep n target b
    let r := birdsPhase target bs ns gs fits1
    (b1 :: r.1, r.2)
  | _, _, _, fits => ([], fits)

/-- Length of the bird list after an in-range `_remove_bird`. -/
theorem length_removeBird_fst {α β γ : Type} (i : ℕ) (birds : List α)
    (ns : List β) (gs : List γ) (hi : i < birds.length) :
    (removeBird (i : ℤ) birds ns gs).1.length = birds.length - 1 := by
  have hcond : 0 ≤ (i : ℤ) ∧ (i : ℤ) < birds.length :=
    ⟨Int.natCast_nonneg i, by exact_mod_cast hi⟩
  have htn : ((i : ℤ)).toNat = i := by omega
  simp only [removeBird, if_pos hcond, htn]
  rw [List.length_eraseIdx]; simp [hi]

/-- The inner collision loop
`for i, bird in enumerate(birds): if pipe.collide(bird): fitness -= 1; _remove_bird(i, ...)`.
Python's `enumerate` advances its index even when the current element
was popped, so after a removal the element shifted into slot `i` is
skipped; the model advances `i` unconditionally to match.  The loop
exits through the index check; `gas` (called with the entry length of
`birds`, which bounds the number of iterations, since `length - i`
shrinks every step) only makes the recursion structural. -/
def collScan (collide : Collide) (p : Pipe) :
    ℕ → ℕ → List Bird → List Net → List ℕ → List ℚ →
    List Bird × List Net × List ℕ × List ℚ
  | 0, _, birds, nets, gids, fits => (birds, nets, gids, fits)
  | gas + 1, i, birds, nets, gids, fits =>
    if h : i < birds.length then
      if collide p (birds.get ⟨i, h⟩) then
        let fits1 := addFit fits (gids.getD i 0) (-1)
        let r := removeBird (i : ℤ) birds nets gids
        collScan collide p gas (i + 1) r.1 r.2.1 r.2.2 fits1
      else
        collScan collide p gas (i + 1) birds nets gids fits
    else (birds, nets, gids, fits)

/-- Accumulator of the `for pipe in pipes` loop: the processed pipes
(with a flag recording membership in `pipes_to_remove`, which Python
removes by object identity after the loop) and the `add_pipe` flag. -/
structure LoopAcc where
  birds : List Bird
  networks : List Net
  genome_list : List ℕ
  fits : List ℚ
  newPipes : List (Pipe × Bool)
  add_pipe : Bool

/-- One iteration of the pipe loop: `pipe.move()`; the collision scan;
`if pipe.is_off_screen(): pipes_to_remove.append(pipe)`;
`if not pipe.passed and len(birds) > 0 and pipe.x < birds[0].x:
pipe.mark_passed(); add_pipe = True`. -/
def pipeStep (g : Geom) (collide : Collide) (acc : LoopAcc) (p : Pipe) : LoopAcc :=
  let p1 := Pipe.moveP p
  let r := collScan collide p1 acc.birds.length 0 acc.birds acc.networks acc.genome_list acc.fits
  let off := Pipe.is_off_screen g.pipeW p1
  let pa : Pipe × Bool :=
    match r.1 with
    | [] => (p1, false)
    | b0 :: _ =>
      if ¬ p1.passed ∧ p1.x < b0.x then (Pipe.mark_passed p1, true) else (p1, false)
  { birds := r.1, networks := r.2.1, genome_list := r.2.2.1, fits := r.2.2.2,
    newPipes := acc.newPipes ++ [(pa.1, off)], add_pipe := acc.add_pipe || pa.2 }

/-- The whole `for pipe in pipes` loop. -/
def pipesPhase (g : Geom) (collide : Collide) (birds : List Bird) (nets : List Net)
    (gids : List ℕ) (fits : List ℚ) (pipes : List Pipe) : LoopAcc :=
  pipes.foldl (pipeStep g collide) ⟨birds, nets, gids, fits, [], false⟩

/-- The reverse-order floor/ceiling loop
`for i in range(len(birds) - 1, -1, -1): if bird.y + bird.img.get_height() >= FLOOR_Y or bird.y < -50: _remove_bird(i, ...)`.
Called with `i = len(birds)`; every index it visits is in range in the
source, the out-of-range branch only totalises the model. -/
def floorScan (g : Geom) : ℕ → List Bird → List Net → List ℕ →
    List Bird × List Net × List ℕ
  | 0, birds, nets, gids => (birds, nets, gids)
  | i + 1, birds, nets, gids =>
    if h : i < birds.length then
      if FLOOR_Y ≤ (birds.get ⟨i, h⟩).y + g.birdH ∨ (birds.get ⟨i, h⟩).y < -50 then
        let r := removeBird (i : ℤ) birds nets gids
        floorScan g i r.1 r.2.1 r.2.2
      else floorScan g i birds nets gids
    else floorScan g i birds nets gids

/-- The accumulated state after the bird loop and the pipe loop of one
tick — everything that precedes the `if add_pipe:` block.  The `getD`
fallback pipe is never selected in a reachable state (`pipes` is never
empty and `pipe_index = 1` only when a second pipe exists); an
out-of-range index would raise in the source. -/
def tickAcc (g : Geom) (collide : Collide) (st : EvalState) : LoopAcc :=
  let pi := pipeIndex g st.birds st.pipes
  let target := st.pipes.getD pi (Pipe.create 0 0 0)
  let bp := birdsPhase target st.birds st.networks st.genome_list st.fits
  pipesPhase g collide bp.1 st.networks st.genome_list bp.2 st.pipes

/-- One iteration of the `while` loop body of `_eval_genomes` (after the
event poll): pipe targeting, the bird loop, the pipe loop, the
score/bonus/spawn block, off-screen removal, and the boundary loop.
`draw` is the oracle for the `random.randrange` call of a pipe spawned
this tick.  `base.move()` and `draw_window` only render. -/
def tick (g : Geom) (collide : Collide) (draw : ℤ) (st : EvalState) : EvalState :=
  let acc := tickAcc g collide st
  let score1 := if acc.add_pipe then st.score + 1 else st.score
  let fits2 := if acc.add_pipe then addFitAll acc.genome_list 5 acc.fits else acc.fits
  let kept := (acc.newPipes.filter (fun q => !q.2)).map Prod.fst
  let pipes2 := kept ++ (if acc.add_pipe then [Pipe.create WIN_WIDTH draw g.pipeTopH] else [])
  let r := floorScan g acc.birds.length acc.birds acc.networks acc.genome_list
  { birds := r.1, networks := r.2.1, genome_list := r.2.2, fits := fits2,
    pipes := pipes2, score := score1 }

/-- The generation initialisation of `_eval_genomes`: one bird at
`(230, 350)` and fitness `0` per genome, one pipe at `x = 700`, score
`0`.  Genome ids are the positions `0, …, n-1` of the `genomes`
argument. -/
def initState (nets : List Net) (n : ℕ) (draw0 : ℤ) (g : Geom) : EvalState :=
  { birds := List.replicate n (Bird.create 230 350),
    networks := nets,
    genome_list := List.range n,
    fits := List.replicate n 0,
    pipes := [Pipe.create 700 draw0 g.pipeTopH],
    score := 0 }

/-- The `while run and len(birds) > 0` loop.  `events k` is the result
of `handle_events()` on iteration `k` (`false` = quit request), `draws`
the randomness oracle. `fuel` only totalises the model; every claim uses
enough of it. -/
def runLoop (g : Geom) (collide : Collide) (events : ℕ → Bool) (draws : ℕ → ℤ) :
    ℕ → ℕ → EvalState → EvalState
  | 0, _, st => st
  | fuel + 1, k, st =>
    if st.birds.isEmpty then st
    else if events k then
      runLoop g collide events draws fuel (k + 1) (tick g collide (draws k) st)
    else st

/-- The post-loop best tracking:
`for genome in genome_list: if genome.fitness > self.best_fitness: ...`.
`self.best_fitness` starts as `float('-inf')`, modelled by `⊥` in
`WithBot ℚ`; `self.best_genome` starts as `None`. -/
def trackBest (gids : List ℕ) (fits : List ℚ) (best : WithBot ℚ × Option ℕ) :
    WithBot ℚ × Option ℕ :=
  gids.foldl
    (fun acc gid =>
      if acc.1 < (fits.getD gid 0 : ℚ) then ((fits.getD gid 0 : ℚ), some gid) else acc)
    best

/-- `_eval_genomes` end to end: initialise, run the tick loop, then
update the cross-generation best tracker. -/
def evalGenomes (g : Geom) (collide : Collide) (events : ℕ → Bool) (draws : ℕ → ℤ)
    (fuel n : ℕ) (nets : List Net) (draw0 : ℤ) (best : WithBot ℚ × Option ℕ) :
    EvalState × (WithBot ℚ × Option ℕ) :=
  let fin := runLoop g collide events draws fuel 0 (initState nets n draw0 g)
  (fin, trackBest fin.genome_list fin.fits best)

/-! ## Lemmas about the fitness store and the pipe loop -/

theorem length_addFit (fits : List ℚ) (gid : ℕ) (d : ℚ) :
    (addFit fits gid d).length = fits.length := by
  simp [addFit]

theorem getD_addFit_self (fits : List ℚ) (gid : ℕ) (d : ℚ) (h : gid < fits.length) :
    (addFit fits gid d).getD gid 0 = fits.getD gid 0 + d := by
  simp [addFit, List.getD, List.getElem?_set_self, h]

theorem getD_addFit_ne (fits : List ℚ) (gid gid2 : ℕ) (d : ℚ) (h : gid ≠ gid2) :
    (addFit fits gid d).getD gid2 0 = fits.getD gid2 0 := by
  simp [addFit, List.getD, List.getElem?_set_ne h]

theorem getD_addFitAll_not_mem (d : ℚ) :
    ∀ (gids : List ℕ) (fits : List ℚ) (gid : ℕ), gid ∉ gids →
      (addFitAll gids d fits).getD gid 0 = fits.getD gid 0
  | [], _, _, _ => rfl
  | a :: rest, fits, gid, h => by
    have h1 : gid ≠ a := fun e => h (e ▸ List.mem_cons_self a rest)
    have h2 : gid ∉ rest := fun e => h (List.mem_cons_of_mem a e)
    rw [show addFitAll (a :: rest) d fits = addFitAll rest d (addFit fits a d) from rfl,
      getD_addFitAll_not_mem d rest _ gid h2, getD_addFit_ne fits a gid d (Ne.symm h1)]

/-- `for genome in genome_list: genome.fitness += d` adds exactly `d` to
every genome currently referenced (ids are distinct in every reachable
state: they start as `range n` and removal only deletes entries). -/
theorem getD_addFitAll_mem (d : ℚ) :
    ∀ (gids : List ℕ) (fits : List ℚ) (gid : ℕ), gids.Nodup → gid ∈ gids →
      gid < fits.length →
      (addFitAll gids d fits).getD gid 0 = fits.getD gid 0 + d
  | [], _, gid, _, hmem, _ => absurd hmem (List.not_mem_nil gid)
  | a :: rest, fits, gid, hnd, hmem, hlt => by
    have hstep : addFitAll (a :: rest) d fits = addFitAll rest d (addFit fits a d) := rfl
    rcases List.mem_cons.mp hmem with he | hm
    · subst he
      have hnot : gid ∉ rest := (List.nodup_cons.mp hnd).1
      rw [hstep, getD_addFitAll_not_mem d rest _ gid hnot, getD_addFit_self fits gid d hlt]
    · have hne : gid ≠ a := by
        rintro rfl
        exact (List.nodup_cons.mp hnd).1 hm
      rw [hstep,
        getD_addFitAll_mem d rest (addFit fits a d) gid (List.nodup_cons.mp hnd).2 hm
          (by rw [length_addFit]; exact hlt),
        getD_addFit_ne fits a gid d (Ne.symm hne)]

/-- When the mask test never fires, the collision loop changes nothing. -/
theorem collScan_no_collision (collide : Collide) (p : Pipe)
    (hnc : ∀ b, collide p b = false) :
    ∀ (gas i : ℕ) (birds : List Bird) (nets : List Net) (gids : List ℕ)
      (fits : List ℚ),
      collScan collide p gas i birds nets gids fits = (birds, nets, gids, fits)
  | 0, _, _, _, _, _ => rfl
  | gas + 1, i, birds, nets, gids, fits => by
    simp only [collScan, hnc]
    split
    · exact collScan_no_collision collide p hnc gas (i + 1) birds nets gids fits
    · rfl

/-- The Bool-valued pass condition tested for each pipe of the loop:
`not pipe.passed and len(birds) > 0 and pipe.x < birds[0].x`, after the
pipe has moved. -/
def passCond (birds : List Bird) (p : Pipe) : Bool :=
  !p.passed && !birds.isEmpty && decide ((Pipe.moveP p).x < birds.headI.x)

/-- One pipe iteration without collisions: the bird list is untouched
and `add_pipe` picks up exactly the pass condition. -/
theorem pipeStep_no_collision (g : Geom) (collide : Collide)
    (hnc : ∀ p b, collide p b = false) (acc : LoopAcc) (p : Pipe) :
    (pipeStep g collide acc p).birds = acc.birds ∧
    (pipeStep g collide acc p).add_pipe = (acc.add_pipe || passCond acc.birds p) := by
  have hscan := collScan_no_collision collide (Pipe.moveP p) (hnc _)
    acc.birds.length 0 acc.birds acc.networks acc.genome_list acc.fits
  simp only [pipeStep, hscan]
  cases hb : acc.birds with
  | nil => simp [passCond, hb]
  | cons b0 bs =>
    refine ⟨trivial, ?_⟩
    simp only [passCond, hb, Pipe.moveP, Pipe.mark_passed, List.headI, List.isEmpty_cons]
    by_cases h1 : p.passed <;> by_cases h2 : p.x - PIPE_VEL < b0.x <;> simp [h1, h2]

/-- The pipe loop without collisions: birds unchanged, and `add_pipe`
is the disjunction of the pass conditions over the processed pipes. -/
theorem foldl_pipeStep_no_collision (g : Geom) (collide : Collide)
    (hnc : ∀ p b, collide p b = false) :
    ∀ (pipes : List Pipe) (acc : LoopAcc),
      (pipes.foldl (pipeStep g collide) acc).birds = acc.birds ∧
      (pipes.foldl (pipeStep g collide) acc).add_pipe =
        (acc.add_pipe || pipes.any (passCond acc.birds))
  | [], acc => ⟨rfl, by simp⟩
  | p :: ps, acc => by
    have h1 := pipeStep_no_collision g collide hnc acc p
    have h2 := foldl_pipeStep_no_collision g collide hnc ps (pipeStep g collide acc p)
    constructor
    · rw [List.foldl_cons, h2.1, h1.1]
    · rw [List.foldl_cons, h2.2, h1.2, h1.1, List.any_cons, Bool.or_assoc]

/-- `add_pipe` is set in a tick iff some not-yet-passed pipe's moved `x`
is below the lead bird's `x` (collision-free tick). -/
theorem pipesPhase_add_pipe_iff (g : Geom) (collide : Collide)
    (hnc : ∀ p b, collide p b = false) (birds : List Bird) (nets : List Net)
    (gids : List ℕ) (fits : List ℚ) (pipes : List Pipe) :
    ((pipesPhase g collide birds nets gids fits pipes).add_pipe = true ↔
      ∃ p ∈ pipes, ¬ p.passed ∧ birds ≠ [] ∧ (Pipe.moveP p).x < birds.headI.x) := by
  rw [pipesPhase, (foldl_pipeStep_no_collision g collide hnc pipes _).2]
  simp [passCond, List.any_eq_true, List.isEmpty_iff, and_assoc]

/-! ## Claim C4: a pass event scores once, rewards all, spawns one pipe -/

/-- Claim C4: in every tick whose pipe loop raises `add_pipe` — which,
on a collision-free tick, happens exactly when some not-yet-passed
pipe's x drops below the lead agent's x (last conjunct) — the score is
incremented by exactly `1` (however many pipes passed), `+5` is added to
the fitness of every genome still referenced by the parallel collections
at that point of the tick, and exactly one new pipe is appended, at the
right boundary `WIN_WIDTH`. -/
theorem C4_pass_event_exactly_once (g : Geom) (collide : Collide) (draw : ℤ)
    (st : EvalState) (acc : LoopAcc) (hacc : acc = tickAcc g collide st)
    (hadd : acc.add_pipe = true) :
    (tick g collide draw st).score = st.score + 1 ∧
    (tick g collide draw st).fits = addFitAll acc.genome_list 5 acc.fits ∧
    (∀ gid, acc.genome_list.Nodup → gid ∈ acc.genome_list → gid < acc.fits.length →
      (tick g collide draw st).fits.getD gid 0 = acc.fits.getD gid 0 + 5) ∧
    (tick g collide draw st).pipes =
      (acc.newPipes.filter (fun q => !q.2)).map Prod.fst ++
        [Pipe.create WIN_WIDTH draw g.pipeTopH] ∧
    (Pipe.create WIN_WIDTH draw g.pipeTopH).x = WIN_WIDTH ∧
    ((∀ p b, collide p b = false) →
      ∀ (birds2 : List Bird) (nets2 : List Net) (gids2 : List ℕ) (fits2 : List ℚ)
        (pipes2 : List Pipe),
        ((pipesPhase g collide birds2 nets2 gids2 fits2 pipes2).add_pipe = true ↔
          ∃ p ∈ pipes2, ¬ p.passed ∧ birds2 ≠ [] ∧
            (Pipe.moveP p).x < birds2.headI.x)) := by
  subst hacc
  have hscore : (tick g collide draw st).score =
      (if (tickAcc g collide st).add_pipe then st.score + 1 else st.score) := rfl
  have hfits : (tick g collide draw st).fits =
      (if (tickAcc g collide st).add_pipe then
        addFitAll (tickAcc g collide st).genome_list 5 (tickAcc g collide st).fits
      else (tickAcc g collide st).fits) := rfl
  have hpipes : (tick g collide draw st).pipes =
      ((tickAcc g collide st).newPipes.filter (fun q => !q.2)).map Prod.fst ++
        (if (tickAcc g collide st).add_pipe then [Pipe.create WIN_WIDTH draw g.pipeTopH]
         else []) := rfl
  refine ⟨?_, ?_, ?_, ?_, rfl, ?_⟩
  · rw [hscore, hadd]; rfl
  · rw [hfits, hadd]; rfl
  · intro gid hnd hm hlt
    rw [hfits, hadd]
    simpa using getD_addFitAll_mem 5 _ _ gid hnd hm hlt
  · rw [hpipes, hadd]; rfl
  · intro hnc birds2 nets2 gids2 fits2 pipes2
    exact pipesPhase_add_pipe_iff g collide hnc birds2 nets2 gids2 fits2 pipes2

/-! ## Claim C6: targeting, sensory vector and the jump threshold -/

/-- Each position of the bird loop's output is `birdStep` of the
network and bird at the same position. -/
theorem birdsPhase_fst (target : Pipe) :
    ∀ (birds : List Bird) (nets : List Net) (gids : List ℕ) (fits : List ℚ)
      (i : ℕ) (hi : i < birds.length) (hn : i < nets.length)
      (hg : i < gids.length),
      (birdsPhase target birds nets gids fits).1[i]? =
        some (birdStep (nets.get ⟨i, hn⟩) target (birds.get ⟨i, hi⟩))
  | b :: bs, n :: ns, g :: gs, fits, 0, _, _, _ => by
    rw [show (birdsPhase target (b :: bs) (n :: ns) (g :: gs) fits).1 =
        birdStep n target b :: (birdsPhase target bs ns gs (addFit fits g 0.1)).1 from rfl,
      List.getElem?_cons_zero]
    rfl
  | b :: bs, n :: ns, g :: gs, fits, i + 1, hi, hn, hg => by
    have hcons : (birdsPhase target (b :: bs) (n :: ns) (g :: gs) fits).1 =
        birdStep n target b :: (birdsPhase target bs ns gs (addFit fits g 0.1)).1 := rfl
    rw [hcons, List.getElem?_cons_succ]
    exact birdsPhase_fst target bs ns gs (addFit fits g 0.1) i
      (by simpa using hi) (by simpa using hn) (by simpa using hg)
  | [], _, _, _, i, hi, _, _ => absurd hi (by simp)
  | _ :: _, [], _, _, i, _, hn, _ => absurd hn (by simp)
  | _ :: _, _ :: _, [], _, i, _, _, hg => absurd hg (by simp)

/-- Claim C6: the targeted pipe is the first one unless a second exists
and the lead agent's x exceeds the first pipe's right edge
(`x + PIPE_TOP.get_width()`); every live agent's network is fed exactly
`(y, |y - target.height|, |y - target.bottom|)` of its post-move
position, and the agent jumps exactly when the scalar output exceeds
`0.5` — and the tick's bird loop applies precisely this step at every
index. -/
theorem C6_sensors_target_threshold (g : Geom) (b0 : Bird) (bs : List Bird)
    (p0 p1 : Pipe) (ps : List Pipe) (net : Net) (target : Pipe) (b : Bird)
    (birds : List Bird) (nets : List Net) (gids : List ℕ) (fits : List ℚ)
    (i : ℕ) (hi : i < birds.length) (hn : i < nets.length) (hg : i < gids.length) :
    (pipeIndex g (b0 :: bs) (p0 :: p1 :: ps) =
      if b0.x > p0.x + g.pipeW then 1 else 0) ∧
    pipeIndex g (b0 :: bs) [p0] = 0 ∧
    pipeIndex g [] (p0 :: p1 :: ps) = 0 ∧
    (birdStep net target b =
      if net (Bird.move b).y |(Bird.move b).y - (target.height : ℚ)|
           |(Bird.move b).y - (target.bottom : ℚ)| > 0.5
      then Bird.jump (Bird.move b) else Bird.move b) ∧
    (birdsPhase target birds nets gids fits).1[i]? =
      some (birdStep (nets.get ⟨i, hn⟩) target (birds.get ⟨i, hi⟩)) :=
  ⟨rfl, rfl, rfl, rfl, birdsPhase_fst target birds nets gids fits i hi hn hg⟩

/-! ## The no-jump scenario

A single genome whose network never crosses the jump threshold, the
stock geometry (`FLOOR_Y = 730`, gravity `3.0`), no pipe collision (the
pipe, spawned at `x = 700` and moving `5` per tick, is still far to the
right of the bird at `x = 230` when the bird meets the floor, so the
mask test cannot fire).  Image dimensions are the stock assets at
`IMAGE_SCALE = 2`: bird `34×24` → height `48`, pipe `52×320` → width
`104`, height `640`. -/

def noJumpNet : Net := fun _ _ _ => 0

def scenarioGeom : Geom := { pipeW := 104, pipeTopH := 640, birdH := 48 }

def noCollide : Collide := fun _ _ => false

/-- The state of the no-jump generation after `fuel` ticks (the loop
stops by itself once the bird list is empty). -/
def scenarioState (fuel : ℕ) : EvalState :=
  runLoop scenarioGeom noCollide (fun _ => true) (fun _ => 300) fuel 0
    (initState [noJumpNet] 1 300 scenarioGeom)

/-- The full `_eval_genomes` call for the no-jump generation, starting
from the constructor state `best_fitness = float('-inf')`,
`best_genome = None`. -/
def scenarioEval : EvalState × (WithBot ℚ × Option ℕ) :=
  evalGenomes scenarioGeom noCollide (fun _ => true) (fun _ => 300) 100 1
    [noJumpNet] 300 (⊥, none)

/-- A one-bird, one-pipe state in which the pipe (at `x = 234`, not yet
passed) crosses the lead bird's `x = 230` on this tick. -/
def passState : EvalState :=
  { birds := [Bird.create 230 350], networks := [noJumpNet], genome_list := [0],
    fits := [0], pipes := [Pipe.create 234 300 640], score := 0 }

section ScenarioComputation

attribute [local semireducible] Rat.mul Rat.add Rat.sub Rat.inv Rat.ofScientific

set_option maxRecDepth 10000

/-! ## Claim C5: the single-agent no-jump scenario -/

/-- Claim C5 (counterexample): the no-jump agent survives exactly 23
ticks (alive after 22, eliminated by the floor check of tick 23), but
its final fitness is `0.1 · 23 = 2.3`, not `0.1 · 23 - 1 = 1.3`: the
floor/ceiling elimination in `_eval_genomes` applies no `-1` penalty —
only the pipe-collision branch does. -/
theorem C5_counterexample :
    (scenarioState 22).birds ≠ [] ∧
    (scenarioState 23).birds = [] ∧
    (scenarioState 23).fits = [23 / 10] ∧
    ¬ ((23 : ℚ) / 10 = 0.1 * 23 - 1) := by
  refine ⟨by decide, by decide, by decide, by decide⟩

/-- Claim C5 (amended): the no-jump agent reaches the floor and is
eliminated after a bounded, deterministic number of ticks (exactly 23;
the state is unchanged by any further fuel, so the generation ends),
and its genome's final fitness is `0.1 · ticks_survived` with no
collision penalty. -/
theorem C5_no_jump_floor_elimination :
    (scenarioState 22).birds ≠ [] ∧
    (scenarioState 23).birds = [] ∧
    (scenarioState 23).fits = [0.1 * (23 : ℚ)] ∧
    (scenarioState 100).birds = [] ∧
    (scenarioState 100).fits = [0.1 * (23 : ℚ)] ∧
    (scenarioState 100).score = 0 := by
  refine ⟨by decide, by decide, by decide, by decide, by decide, by decide⟩

/-! ## Claim C3: the cross-generation best tracker at `DONE` -/

/-- Claim C3 (code bug): the post-loop `for genome in genome_list`
best-tracking scan iterates the *surviving* list, but every elimination
pops the genome from `genome_list`, so when the generation ends because
no agents remain (the normal case) the list is empty and the tracker is
not updated — here the only genome of the generation finished with
fitness `2.3 > -inf`, yet `best_fitness`/`best_genome` remain
`(-inf, None)`. -/
theorem C3_best_tracker_skips_eliminated_genomes :
    scenarioEval.1.genome_list = [] ∧
    scenarioEval.1.fits = [23 / 10] ∧
    (⊥ : WithBot ℚ) < ((23 : ℚ) / 10 : ℚ) ∧
    scenarioEval.2 = (⊥, none) := by
  refine ⟨by decide, by decide, by decide, by decide⟩

/-- Witness for C4: in `passState` the tick raises `add_pipe` and the
score goes from `0` to `1`. -/
theorem C4_pass_event_witness :
    (tickAcc scenarioGeom noCollide passState).add_pipe = true ∧
    (tick scenarioGeom noCollide 300 passState).score = passState.score + 1 :=
  ⟨by decide,
   (C4_pass_event_exactly_once scenarioGeom noCollide 300 passState
      (tickAcc scenarioGeom noCollide passState) rfl (by decide)).1⟩

/-- Witness for C6: with a single pipe the targeted pipe index is `0`. -/
theorem C6_sensors_witness :
    0 < ([Bird.create 230 350] : List Bird).length ∧
    pipeIndex scenarioGeom [Bird.create 230 350] [Pipe.create 700 300 640] = 0 :=
  ⟨by decide,
   (C6_sensors_target_threshold scenarioGeom (Bird.create 230 350) []
      (Pipe.create 700 300 640) (Pipe.create 700 300 640) [] noJumpNet
      (Pipe.create 700 300 640) (Bird.create 230 350)
      [Bird.create 230 350] [noJumpNet] [0] [0] 0
      (by decide) (by decide) (by decide)).2.1⟩

end ScenarioComputation

/-! ## `NEATTrainer.train` exception structure (`ai/trainer.py`) and
`_save_genome` -/

/-- What `population.run(self._eval_genomes, max_generations)` does:
returns a winner genome, raises `KeyboardInterrupt`, or raises some
other exception.  Genomes are referenced by id. -/
inductive RunOutcome
  | ok (winner : ℕ)
  | keyboardInterrupt
  | exn
  deriving Repr, DecidableEq

/-- What `train` re-raises: `raise` inside
`except KeyboardInterrupt` or `except Exception`. -/
inductive TrainError
  | interrupted
  | failed
  deriving Repr, DecidableEq

/-- The labels `train` passes to `_save_genome`. -/
inductive SaveName
  | winner
  | interrupted_best
  deriving Repr, DecidableEq

/-- Result of one `_save_genome` call.  The body is
`try: pickle.dump...; except Exception: logger.error(...)`: a failing
dump is logged and swallowed, so the function is total — it returns a
result instead of ever propagating an exception. -/
inductive SaveResult
  | saved
  | loggedFailure
  deriving Repr, DecidableEq

/-- `NEATTrainer._save_genome(genome, name)`; `saveOk` tells whether
the pickle dump succeeds. -/
def saveGenome (saveOk : Bool) : SaveResult :=
  if saveOk then .saved else .loggedFailure

/-- The `try`/`except` structure of `NEATTrainer.train` around
`population.run` (trainer lines 91–111): on success save the winner as
`"winner"` and return it; on `KeyboardInterrupt` save
`self.best_genome` as `"interrupted_best"` when it is not `None`, then
re-raise; on any other exception just re-raise.  The second component
records the `_save_genome` calls made, in order, with their results. -/
def train (run : RunOutcome) (best_genome : Option ℕ) (saveOk : Bool) :
    Except TrainError ℕ × List ((ℕ × SaveName) × SaveResult) :=
  match run with
  | .ok winner => (.ok winner, [((winner, .winner), saveGenome saveOk)])
  | .keyboardInterrupt =>
    (.error .interrupted,
     match best_genome with
     | some gid => [((gid, .interrupted_best), saveGenome saveOk)]
     | none => [])
  | .exn => (.error .failed, [])

/-! ## Claim C9: interrupt saves the best genome, save failure not fatal -/

/-- Claim C9: if `KeyboardInterrupt` occurs during training and a best
genome is known, that genome is saved through the best-effort
persistence path (under the `interrupted_best` label) and the
interruption is then re-raised to the caller; a failing save is logged
(`loggedFailure`) but the outcome — including the re-raise — is the
same, because `_save_genome` never propagates its failure. -/
theorem C9_interrupt_best_effort_save (best : Option ℕ) (saveOk : Bool) (gid : ℕ)
    (hbest : best = some gid) :
    (train .keyboardInterrupt best saveOk).1 = .error .interrupted ∧
    (train .keyboardInterrupt best saveOk).2 =
      [((gid, .interrupted_best), saveGenome saveOk)] ∧
    saveGenome false = SaveResult.loggedFailure ∧
    (train .keyboardInterrupt best false).1 = .error .interrupted := by
  subst hbest
  exact ⟨rfl, rfl, rfl, rfl⟩

/-- Witness for C9: best genome `7` known, save failing. -/
theorem C9_interrupt_witness :
    (some 7 = some 7) ∧
    ((train .keyboardInterrupt (some 7) false).1 = .error .interrupted ∧
     (train .keyboardInterrupt (some 7) false).2 =
       [((7, .interrupted_best), saveGenome false)] ∧
     saveGenome false = SaveResult.loggedFailure ∧
     (train .keyboardInterrupt (some 7) false).1 = .error .interrupted) :=
  ⟨rfl, C9_interrupt_best_effort_save (some 7) false 7 rfl⟩

end FlappyAI

